import Mathlib

/-!
Verification of the Heimdall agent repository (atomic_heimdall and
smol_heimdall variants): a shallow embedding of the path-confinement logic,
the FileManager tool, the human-in-the-loop console tool, the web-search
wrapper and the agent inner loop, with theorems settling the specification
claims about them.

Paths are modelled as strings and the relevant `posixpath` functions
(`isabs`, `join`, `normpath`, `commonpath`, `dirname`, `basename`,
`relpath`) are reimplemented character-for-character for the POSIX
separator `/`.
-/

/-- `charsLeads p s` : the list `p` is an initial segment of `s`. -/
def charsLeads : List Char → List Char → Bool
  | [], _ => true
  | _ :: _, [] => false
  | p :: ps, s :: ss => p = s && charsLeads ps ss

/-- Python `s.startswith(pre)` on strings. -/
def strStartsWith (s pre : String) : Bool :=
  charsLeads pre.data s.data

/-- Python `s.endswith(suf)` on strings. -/
def strEndsWith (s suf : String) : Bool :=
  charsLeads suf.data.reverse s.data.reverse

/-- Split a character list on `/`, keeping empty components (Python `str.split('/')`). -/
def splitSlashAux : List Char → List Char → List (List Char)
  | [], acc => [acc.reverse]
  | c :: cs, acc =>
    if c = '/' then acc.reverse :: splitSlashAux cs []
    else splitSlashAux cs (c :: acc)

/-- Python `path.split('/')`. -/
def splitSlash (s : String) : List String :=
  (splitSlashAux s.data []).map (fun cs => String.mk cs)

/-- Python `'/'.join(comps)`. -/
def joinComps : List String → String
  | [] => ""
  | c :: cs => cs.foldl (fun acc x => acc ++ "/" ++ x) c

/-- Python `os.path.isabs` (POSIX): the path starts with `/`. -/
def isabs (s : String) : Bool :=
  s.data.head? = some '/'

/-- Component processing loop of `posixpath.normpath`: skip empty and `.`
components; on `..` pop the last kept component unless the path is relative
and nothing was kept, or the last kept component is itself `..`. -/
def normAux (isAbsolute : Bool) : List String → List String → List String
  | acc, [] => acc.reverse
  | acc, comp :: rest =>
    if comp = "" || comp = "." then normAux isAbsolute acc rest
    else if comp ≠ ".." || (!isAbsolute && acc.isEmpty)
        || (match acc with | top :: _ => top = ".." | [] => false) then
      normAux isAbsolute (comp :: acc) rest
    else
      match acc with
      | _ :: accTail => normAux isAbsolute accTail rest
      | [] => normAux isAbsolute acc rest

/-- Python `posixpath.normpath`. -/
def normpath (p : String) : String :=
  if p = "" then "."
  else
    let isAbsolute := isabs p
    let slashes : Nat :=
      if isAbsolute then
        if strStartsWith p "//" && !strStartsWith p "///" then 2 else 1
      else 0
    let body := joinComps (normAux isAbsolute [] (splitSlash p))
    let out := String.mk (List.replicate slashes '/') ++ body
    if out = "" then "." else out

/-- Python `posixpath.join` restricted to two arguments. -/
def joinPath (a b : String) : String :=
  if isabs b then b
  else if a = "" || strEndsWith a "/" then a ++ b
  else a ++ "/" ++ b

/-- Longest common component-list of two paths. -/
def commonComps : List String → List String → List String
  | a :: as, b :: bs => if a = b then a :: commonComps as bs else []
  | _, _ => []

/-- Python `posixpath.commonpath` for two absolute paths: drop empty and `.`
components, take the longest common component sequence, re-join with a
leading `/`. (Both arguments are absolute at every call site in the code.) -/
def commonpath2 (a b : String) : String :=
  let ca := (splitSlash a).filter (fun c => c ≠ "" && c ≠ ".")
  let cb := (splitSlash b).filter (fun c => c ≠ "" && c ≠ ".")
  "/" ++ joinComps (commonComps ca cb)

/-- Python `posixpath.dirname`: everything up to the final `/`, with
trailing slashes stripped unless the head is all slashes. -/
def dirname (p : String) : String :=
  let rev := p.data.reverse
  let headRev := rev.dropWhile (fun c => c ≠ '/')
  if headRev.isEmpty then ""
  else if headRev.all (fun c => c = '/') then String.mk headRev.reverse
  else String.mk (headRev.dropWhile (fun c => c = '/')).reverse

/-- Python `posixpath.basename`: everything after the final `/`. -/
def basename (p : String) : String :=
  String.mk (p.data.reverse.takeWhile (fun c => c ≠ '/')).reverse

/-- Python `posixpath.relpath p start` for normalized absolute paths. -/
def relpath (p start : String) : String :=
  let pc := (splitSlash p).filter (fun c => c ≠ "" && c ≠ ".")
  let sc := (splitSlash start).filter (fun c => c ≠ "" && c ≠ ".")
  let common := commonComps pc sc
  let rel := List.replicate (sc.length - common.length) ".." ++ pc.drop common.length
  if rel.isEmpty then "." else joinComps rel

/-- The specification's notion of confinement: a normalized absolute path
`p` lies inside the root `root` when it equals the root or extends it by a
whole path component. -/
def pathWithin (root p : String) : Bool :=
  p = root || strStartsWith p (root ++ "/")

/-- `FileManagerTool._resolve_path` (atomic_heimdall): reject absolute
paths, then `normpath(join(working_dir, path))` and require the resolved
string to start with `working_dir` (a plain string-prefix test). -/
def resolvePathAtomic (workingDir path : String) : Option String :=
  if isabs path then none
  else
    let absPath := normpath (joinPath workingDir path)
    if strStartsWith absPath workingDir then some absPath else none

/-- `FileManager._resolve_path` (smol_heimdall):
`abspath(join(working_dir, path))` (which is `normpath` here because
`working_dir` is absolute), then require
`commonpath([working_dir, abs_path]) == working_dir`. -/
def resolvePathSmol (workingDir path : String) : Option String :=
  let absPath := normpath (joinPath workingDir path)
  if commonpath2 workingDir absPath ≠ workingDir then none else some absPath

example : normpath "/tmp/heimdall_workspace/../heimdall_workspace_evil/secret.txt"
    = "/tmp/heimdall_workspace_evil/secret.txt" := by rfl

example : resolvePathAtomic "/tmp/heimdall_workspace" "../heimdall_workspace_evil/secret.txt"
    = some "/tmp/heimdall_workspace_evil/secret.txt" := by rfl

example : resolvePathSmol "/tmp/heimdall_workspace" "../heimdall_workspace_evil/secret.txt"
    = none := by rfl

example : resolvePathSmol "/x/work" "/x/work/file.txt" = some "/x/work/file.txt" := by rfl

example : dirname "/a/b/c.txt" = "/a/b" := by rfl
example : dirname "/a" = "/" := by rfl
example : basename "/a/b/c.txt" = "c.txt" := by rfl
example : relpath "/a/b/c" "/a" = "b/c" := by rfl
example : relpath "/a" "/a" = "." := by rfl

/-!
## Python runtime model

Exceptions are `PyExc` (in Python 3 `IOError` is an alias of `OSError`, so
one constructor covers both; every other `Exception` is `otherError`).
Operator console input is a finite list of `InEvent`s: each Python
`input()` call consumes one event, a `line` yielding the typed string and
an `interrupt` standing for `KeyboardInterrupt`; an exhausted list is the
closed input stream (`EOFError`).
-/

inductive PyExc
  | ioError (msg : String)
  | otherError (msg : String)
deriving DecidableEq

def PyExc.message : PyExc → String
  | .ioError m => m
  | .otherError m => m

inductive InEvent
  | line (s : String)
  | interrupt
deriving DecidableEq

/-- ASCII model of Python `str.lower()` on one character. -/
def pyLowerChar (c : Char) : Char :=
  if 'A' ≤ c && c ≤ 'Z' then Char.ofNat (c.toNat + 32) else c

def pyWhitespace : List Char := [' ', '\t', '\n', '\r']

/-- Python `str.strip()` (ASCII whitespace). -/
def pyStrip (s : String) : String :=
  String.mk (((s.data.dropWhile (pyWhitespace.contains ·)).reverse.dropWhile
    (pyWhitespace.contains ·)).reverse)

/-- Python `s.lower().strip()` as applied to approval answers. -/
def pyLowerStrip (s : String) : String :=
  pyStrip (String.mk (s.data.map pyLowerChar))

/-!
## Filesystem model

A finite set of existing directories plus a finite map from file paths to
their contents, all keyed by normalized absolute path strings.
-/

structure FS where
  dirs : List String
  files : List (String × String)
deriving DecidableEq

def FS.lookupFile (fs : FS) (p : String) : Option String :=
  (fs.files.find? (fun e => e.1 = p)).map Prod.snd

/-- `os.path.isfile`. -/
def FS.isFile (fs : FS) (p : String) : Bool :=
  (fs.lookupFile p).isSome

/-- `os.path.isdir`. -/
def FS.isDir (fs : FS) (p : String) : Bool :=
  fs.dirs.contains p

/-- `os.path.exists`. -/
def FS.pathExists (fs : FS) (p : String) : Bool :=
  fs.isDir p || fs.isFile p

/-- The chain `p, dirname p, dirname (dirname p), …` (fuelled: `dirname`
never lengthens its argument). -/
def ancestorChain : Nat → String → List String
  | 0, _ => []
  | fuel + 1, p =>
    p :: (let d := dirname p; if d = p || d = "" then [] else ancestorChain fuel d)

/-- `os.makedirs`: create the directory and every missing ancestor. -/
def FS.makedirs (fs : FS) (p : String) : FS :=
  { fs with dirs :=
      ((ancestorChain (p.length + 1) p).filter (fun d => !fs.isDir d)) ++ fs.dirs }

/-- `open(p, 'w')` followed by `f.write(c)`. -/
def FS.writeFile (fs : FS) (p c : String) : FS :=
  { fs with files := (p, c) :: fs.files.filter (fun e => e.1 ≠ p) }

/-- `open(p, 'a')` followed by `f.write(c)`. -/
def FS.appendFile (fs : FS) (p c : String) : FS :=
  match fs.lookupFile p with
  | some old => fs.writeFile p (old ++ c)
  | none => fs.writeFile p c

/-- `os.listdir p`: names of the immediate children of `p`. -/
def FS.listdir (fs : FS) (p : String) : List String :=
  ((fs.dirs ++ fs.files.map Prod.fst).filter
    (fun q => dirname q = p && q ≠ p)).map basename

/-- Injection points for the exceptions the host filesystem may raise at
each primitive operation (`None` means the operation succeeds). -/
structure FMOracle where
  readErr : String → Option PyExc
  writeErr : String → Option PyExc
  listErr : String → Option PyExc
  mkdirErr : String → Option PyExc

/-- An oracle on which every filesystem primitive succeeds. -/
def noErrOracle : FMOracle :=
  ⟨fun _ => none, fun _ => none, fun _ => none, fun _ => none⟩

/-!
## FileManagerTool (atomic_heimdall/tools/file_manager_tool.py)
-/

structure FileManagerInputSchema where
  action : String
  path : String
  content : Option String := none
  reason : String
deriving DecidableEq

structure FileManagerOutputSchema where
  status : String
  content : Option String := none
  action_performed : Bool
deriving DecidableEq

/-- `FileManagerTool._confirm_write_action`'s approval loop (the banner
printing has no effect on the result): read `input().lower().strip()` until
`y` (true) or `n` (false); `EOFError`/`KeyboardInterrupt` return false.
`FileManager._confirm_write_action` in smol_heimdall is the same loop. -/
def confirmWriteAux : List InEvent → Bool × List InEvent
  | [] => (false, [])
  | .interrupt :: rest => (false, rest)
  | .line s :: rest =>
    let a := pyLowerStrip s
    if a = "y" then (true, rest)
    else if a = "n" then (false, rest)
    else confirmWriteAux rest

/-- Python `'\n'.join(xs)`. -/
def joinLines : List String → String
  | [] => ""
  | x :: xs => xs.foldl (fun a b => a ++ "\n" ++ b) x

/-- Outcome of the `try:` body of `FileManagerTool.run`: either control
reaches a `return` (early or the final one) with the filesystem in state
`fs`, or an exception `e` propagates to the `except` clauses. -/
inductive FMBodyOut
  | ret (fs : FS) (out : FileManagerOutputSchema)
  | exc (fs : FS) (e : PyExc)
deriving DecidableEq

/-- The write/append branch after the parent directory is known to exist
(the part of `FileManagerTool.run` from the `_confirm_write_action` call to
the write itself). -/
def fmWriteAfterDirs (oracle : FMOracle) (stream : List InEvent)
    (action path safePath contentToWrite : String) (fs2 : FS) : FMBodyOut :=
  if !(confirmWriteAux stream).1 then
    .ret fs2 ⟨"User rejected the '" ++ action ++ "' operation on '" ++ path ++ "'.", none, false⟩
  else
    match oracle.writeErr safePath with
    | some e => .exc fs2 e
    | none =>
      if fs2.isDir safePath then
        .exc fs2 (.ioError ("Is a directory: '" ++ safePath ++ "'"))
      else
        .ret (if action = "write" then fs2.writeFile safePath contentToWrite
              else fs2.appendFile safePath contentToWrite)
          ⟨"Successfully performed '" ++ action ++ "' on file '" ++ path ++ "'.", none, true⟩

/-- The `try:` body of `FileManagerTool.run` (after `_resolve_path`
succeeded with `safePath`), branch for branch. -/
def fmTryBody (oracle : FMOracle) (workingDir : String) (fs : FS) (stream : List InEvent)
    (params : FileManagerInputSchema) (safePath : String) : FMBodyOut :=
  if params.action = "read" then
    if !fs.pathExists safePath then
      .ret fs ⟨"Error: File not found at '" ++ params.path ++ "'.", none, false⟩
    else if !fs.isFile safePath then
      .ret fs ⟨"Error: '" ++ params.path ++ "' is not a file.", none, false⟩
    else
      match oracle.readErr safePath with
      | some e => .exc fs e
      | none =>
        .ret fs ⟨"Successfully read content from '" ++ params.path ++ "'.",
                 some ((fs.lookupFile safePath).getD ""), true⟩
  else if params.action = "list" then
    let target := if fs.isFile safePath then dirname safePath else safePath
    if !fs.pathExists target || !fs.isDir target then
      .ret fs ⟨"Error: Directory not found or is not a directory at '" ++ params.path ++ "'.",
               none, false⟩
    else
      match oracle.listErr target with
      | some e => .exc fs e
      | none =>
        .ret fs ⟨"Successfully listed contents of directory '"
                   ++ relpath target workingDir ++ "'.",
                 some (joinLines (fs.listdir target)), true⟩
  else if params.action = "write" || params.action = "append" then
    match params.content with
    | none =>
      .ret fs ⟨"Error: 'content' parameter is required for '" ++ params.action ++ "' action.",
               none, false⟩
    | some contentToWrite =>
      let parentDir := dirname safePath
      if !fs.pathExists parentDir then
        match oracle.mkdirErr parentDir with
        | some (.ioError m) =>
          .ret fs ⟨"Error: Could not create directory '" ++ dirname params.path ++ "': " ++ m,
                   none, false⟩
        | some (.otherError m) => .exc fs (.otherError m)
        | none =>
          fmWriteAfterDirs oracle stream params.action params.path safePath contentToWrite
            (fs.makedirs parentDir)
      else if !fs.isDir parentDir then
        .ret fs ⟨"Error: Cannot create file, '" ++ dirname params.path ++ "' is not a directory.",
                 none, false⟩
      else
        fmWriteAfterDirs oracle stream params.action params.path safePath contentToWrite fs
  else
    .ret fs ⟨"Error: Unknown action '" ++ params.action
               ++ "'. Valid actions are 'read', 'write', 'append', 'list'.", none, false⟩

/-- The status produced by the `except IOError` / `except Exception`
clauses of `FileManagerTool.run`. -/
def fmExcStatus (action path : String) : PyExc → String
  | .ioError m => "Error performing '" ++ action ++ "' on '" ++ path ++ "': " ++ m
  | .otherError m => "Unexpected error during file operation: " ++ m

/-- `FileManagerTool.run`: `_resolve_path`, then the `try:` body, with the
two `except` clauses turning any exception into a failure result. -/
def fileManagerRun (oracle : FMOracle) (workingDir : String) (fs : FS) (stream : List InEvent)
    (params : FileManagerInputSchema) : FS × FileManagerOutputSchema :=
  match resolvePathAtomic workingDir params.path with
  | none =>
    (fs, ⟨"Error: Invalid or disallowed path '" ++ params.path
            ++ "'. Operations confined to '" ++ basename workingDir ++ "'.", none, false⟩)
  | some safePath =>
    match fmTryBody oracle workingDir fs stream params safePath with
    | .ret fs2 out => (fs2, out)
    | .exc fs2 e => (fs2, ⟨fmExcStatus params.action params.path e, none, false⟩)

/-!
## FileManager (smol_heimdall/tools/file_manager.py)

`__call__` returns a plain string. The structure mirrors the atomic tool
but the resolver, the list-branch error messages and the read result text
differ.
-/

/-- Outcome of the `try:` body of `FileManager.__call__`. -/
inductive SmolBodyOut
  | ret (fs : FS) (out : String)
  | exc (fs : FS) (e : PyExc)
deriving DecidableEq

/-- Write/append branch of `FileManager.__call__` after directory handling. -/
def smolWriteAfterDirs (oracle : FMOracle) (stream : List InEvent)
    (action path safePath contentToWrite : String) (fs2 : FS) : SmolBodyOut :=
  if !(confirmWriteAux stream).1 then
    .ret fs2 ("User rejected the '" ++ action ++ "' operation on '" ++ path ++ "'.")
  else
    match oracle.writeErr safePath with
    | some e => .exc fs2 e
    | none =>
      if fs2.isDir safePath then
        .exc fs2 (.ioError ("Is a directory: '" ++ safePath ++ "'"))
      else
        .ret (if action = "write" then fs2.writeFile safePath contentToWrite
              else fs2.appendFile safePath contentToWrite)
          ("Successfully performed '" ++ action ++ "' on file '" ++ path ++ "'.")

/-- The `try:` body of `FileManager.__call__` after `_resolve_path`. -/
def smolTryBody (oracle : FMOracle) (workingDir : String) (fs : FS) (stream : List InEvent)
    (action path : String) (content : Option String) (safePath : String) : SmolBodyOut :=
  if action = "read" then
    if !fs.pathExists safePath then .ret fs ("Error: File not found at '" ++ path ++ "'.")
    else if !fs.isFile safePath then .ret fs ("Error: '" ++ path ++ "' is not a file.")
    else
      match oracle.readErr safePath with
      | some e => .exc fs e
      | none =>
        .ret fs ("Successfully read content from '" ++ path ++ "':\n"
                   ++ (fs.lookupFile safePath).getD "")
  else if action = "list" then
    let target := if fs.isFile safePath then dirname safePath else safePath
    if !fs.pathExists target || !fs.isDir target then
      if fs.pathExists safePath then
        .ret fs ("Error: '" ++ path ++ "' exists but is not a directory.")
      else
        .ret fs ("Error: Directory not found at '" ++ path ++ "'.")
    else
      match oracle.listErr target with
      | some e => .exc fs e
      | none =>
        .ret fs ("Successfully listed contents of directory '"
                   ++ relpath target workingDir ++ "':\n" ++ joinLines (fs.listdir target))
  else if action = "write" || action = "append" then
    match content with
    | none => .ret fs ("Error: 'content' is required for '" ++ action ++ "' action.")
    | some contentToWrite =>
      let parentDir := dirname safePath
      if !fs.pathExists parentDir then
        match oracle.mkdirErr parentDir with
        | some (.ioError m) =>
          .ret fs ("Error: Could not create directory '" ++ dirname path ++ "': " ++ m)
        | some (.otherError m) => .exc fs (.otherError m)
        | none =>
          smolWriteAfterDirs oracle stream action path safePath contentToWrite
            (fs.makedirs parentDir)
      else if !fs.isDir parentDir then
        .ret fs ("Error: Cannot create file, '" ++ dirname path ++ "' is not a directory.")
      else
        smolWriteAfterDirs oracle stream action path safePath contentToWrite fs
  else
    .ret fs ("Error: Unknown action '" ++ action ++ "'.")

/-- `FileManager.__call__` (smol_heimdall). -/
def fileManagerSmolCall (oracle : FMOracle) (workingDir : String) (fs : FS)
    (stream : List InEvent) (action path reason : String) (content : Option String) :
    FS × String :=
  match resolvePathSmol workingDir path with
  | none =>
    (fs, "Error: Invalid or disallowed path '" ++ path
           ++ "'. Operations confined to '" ++ workingDir ++ "'.")
  | some safePath =>
    match smolTryBody oracle workingDir fs stream action path content safePath with
    | .ret fs2 out => (fs2, out)
    | .exc fs2 e =>
      match e with
      | .ioError m =>
        (fs2, "Error performing '" ++ action ++ "' on '" ++ path ++ "': " ++ m)
      | .otherError m => (fs2, "Unexpected error during file operation: " ++ m)

example :
    (fileManagerRun noErrOracle "/tmp/heimdall_workspace"
      ⟨["/", "/tmp", "/tmp/heimdall_workspace", "/tmp/heimdall_workspace_evil"],
       [("/tmp/heimdall_workspace_evil/secret.txt", "TOPSECRET")]⟩
      [] ⟨"read", "../heimdall_workspace_evil/secret.txt", none, "r"⟩).2
    = ⟨"Successfully read content from '../heimdall_workspace_evil/secret.txt'.",
       some "TOPSECRET", true⟩ := by rfl

example :
    (fileManagerRun noErrOracle "/w/root" ⟨["/", "/w", "/w/root"], []⟩
      [InEvent.line "n"] ⟨"write", "sub/notes.txt", some "x", "r"⟩)
    = (⟨["/w/root/sub", "/", "/w", "/w/root"], []⟩,
       ⟨"User rejected the 'write' operation on 'sub/notes.txt'.", none, false⟩) := by rfl

example :
    fileManagerSmolCall noErrOracle "/x/work"
      ⟨["/", "/x", "/x/work"], [("/x/work/file.txt", "hello")]⟩
      [] "read" "/x/work/file.txt" "r" none
    = (⟨["/", "/x", "/x/work"], [("/x/work/file.txt", "hello")]⟩,
       "Successfully read content from '/x/work/file.txt':\nhello") := by rfl

/-!
## HumanInTheLoopConsoleTool (atomic_heimdall) and
## HumanInTheLoopConsole (smol_heimdall)

The `subprocess.run` call is abstracted as an oracle mapping the command
string to its outcome. `shlex.split(command)[0]` in the not-found message
is approximated by the first whitespace-delimited token (no claim depends
on quoting).
-/

structure ConsoleToolConfig where
  timeout : Nat := 300
deriving DecidableEq

structure ConsoleToolInputSchema where
  command : String
  reason : String
deriving DecidableEq

structure ConsoleToolOutputSchema where
  result : String
  executed : Bool
deriving DecidableEq

/-- Outcome of `subprocess.run(shlex.split(command), ...)`. -/
inductive ExecOutcome
  | completed (exitCode : Int) (stdout : String) (stderr : String)
  | timedOut
  | notFound
  | raised (msg : String)
deriving DecidableEq

/-- First token of the command (approximating `shlex.split(command)[0]`,
`"Unknown"` when the command has no token). -/
def firstToken (command : String) : String :=
  let t := String.mk ((pyStrip command).data.takeWhile (fun c => !pyWhitespace.contains c))
  if t = "" then "Unknown" else t

/-- The output text built from a completed process:
exit code, then stdout and stderr sections when nonempty, then `strip()`. -/
def execOutputText (exitCode : Int) (stdout stderr : String) : String :=
  pyStrip ("Exit Code: " ++ toString exitCode ++ "\n"
    ++ (if stdout ≠ "" then "--- STDOUT ---\n" ++ stdout ++ "\n" else "")
    ++ (if stderr ≠ "" then "--- STDERR ---\n" ++ stderr ++ "\n" else ""))

/-- The approval loop of `HumanInTheLoopConsoleTool.run`: `y` executes via
the oracle, `n` reads a rejection reason, `edit` reads a replacement
command and re-prompts, anything else re-prompts;
`EOFError`/`KeyboardInterrupt` at any `input()` reject the command.
The loop is written with an explicit recursion bound `fuel`; every
iteration consumes at least one input event, so `consoleToolRun` passes
the stream's length and the bound is never exhausted (the `0` arm repeats
the closed-stream rejection). -/
def consoleLoop (cfg : ConsoleToolConfig) (oracle : String → ExecOutcome) :
    Nat → List InEvent → String → ConsoleToolOutputSchema
  | 0, _, _ => ⟨"User interrupted/cancelled the operation, command rejected.", false⟩
  | fuel + 1, stream, command =>
    match stream with
    | [] => ⟨"User interrupted/cancelled the operation, command rejected.", false⟩
    | .interrupt :: _ =>
      ⟨"User interrupted/cancelled the operation, command rejected.", false⟩
    | .line s :: rest =>
      let a := pyLowerStrip s
      if a = "y" then
        match oracle command with
        | .completed exitCode stdout stderr => ⟨execOutputText exitCode stdout stderr, true⟩
        | .timedOut =>
          ⟨"Error: Command execution timed out after " ++ toString cfg.timeout ++ " seconds.",
           false⟩
        | .notFound =>
          ⟨"Error: Command not found. Make sure '" ++ firstToken command
             ++ "' is installed and in PATH.", false⟩
        | .raised m => ⟨"Error executing command: " ++ m, false⟩
      else if a = "n" then
        match rest with
        | [] => ⟨"User interrupted/cancelled the operation, command rejected.", false⟩
        | .interrupt :: _ =>
          ⟨"User interrupted/cancelled the operation, command rejected.", false⟩
        | .line rs :: _ =>
          let r := if pyStrip rs = "" then "No reason provided." else pyStrip rs
          ⟨"User rejected the command execution. Reason: " ++ r, false⟩
      else if a = "edit" then
        match rest with
        | [] => ⟨"User interrupted/cancelled the operation, command rejected.", false⟩
        | .interrupt :: _ =>
          ⟨"User interrupted/cancelled the operation, command rejected.", false⟩
        | .line nc :: rest2 =>
          if pyStrip nc ≠ "" then consoleLoop cfg oracle fuel rest2 nc
          else ⟨"User cancelled edit and rejected the command execution.", false⟩
      else consoleLoop cfg oracle fuel rest command

/-- `HumanInTheLoopConsoleTool.run`. -/
def consoleToolRun (cfg : ConsoleToolConfig) (oracle : String → ExecOutcome)
    (stream : List InEvent) (params : ConsoleToolInputSchema) : ConsoleToolOutputSchema :=
  consoleLoop cfg oracle stream.length stream params.command

/-- The interrupt kind matters only to smol_heimdall's console, which
prints different rejection texts for `EOFError` and `KeyboardInterrupt`. -/
inductive SmolBreak
  | eofClosed
  | keyboard

/-- The rejection text of `HumanInTheLoopConsole.__call__` (smol_heimdall)
for the interruption exception `brk`. -/
def smolBreakText : SmolBreak → String
  | .eofClosed => "Error: Input stream closed, command rejected."
  | .keyboard => "User interrupted the operation, command rejected."

/-- The loop of `HumanInTheLoopConsole.__call__` (smol_heimdall): same
shape as the atomic tool's, a plain string result, a hard-wired 300 second
timeout, and distinct texts for the two interruption exceptions
(`brk` says which exception the interrupt event raises; list exhaustion is
`EOFError`). Written with the same never-exhausted `fuel` bound. -/
def smolConsoleLoop (oracle : String → ExecOutcome) (brk : SmolBreak) :
    Nat → List InEvent → String → String
  | 0, _, _ => "Error: Input stream closed, command rejected."
  | fuel + 1, stream, command =>
    match stream with
    | [] => "Error: Input stream closed, command rejected."
    | .interrupt :: _ => smolBreakText brk
    | .line s :: rest =>
      let a := pyLowerStrip s
      if a = "y" then
        match oracle command with
        | .completed exitCode stdout stderr => execOutputText exitCode stdout stderr
        | .timedOut => "Error: Command execution timed out after 300 seconds."
        | .notFound =>
          "Error: Command not found. Make sure '" ++ firstToken command
            ++ "' is installed and in PATH."
        | .raised m => "Error executing command: " ++ m
      else if a = "n" then
        match rest with
        | [] => "Error: Input stream closed, command rejected."
        | .interrupt :: _ => smolBreakText brk
        | .line rs :: _ =>
          let r := if pyStrip rs = "" then "No reason provided." else pyStrip rs
          "User rejected the command execution, reason: " ++ r
      else if a = "edit" then
        match rest with
        | [] => "Error: Input stream closed, command rejected."
        | .interrupt :: _ => smolBreakText brk
        | .line nc :: rest2 =>
          if pyStrip nc ≠ "" then smolConsoleLoop oracle brk fuel rest2 nc
          else "User cancelled edit and rejected the command execution."
      else smolConsoleLoop oracle brk fuel rest command

/-- `HumanInTheLoopConsole.__call__` (smol_heimdall). -/
def smolConsoleCall (oracle : String → ExecOutcome) (brk : SmolBreak)
    (stream : List InEvent) (command : String) : String :=
  smolConsoleLoop oracle brk stream.length stream command

example :
    consoleToolRun {} (fun _ => .completed 0 "hi\n" "") [InEvent.line "y"] ⟨"echo hi", "t"⟩
    = ⟨"Exit Code: 0\n--- STDOUT ---\nhi", true⟩ := by rfl

example :
    consoleToolRun {} (fun _ => .timedOut) [InEvent.line "y"] ⟨"sleep 400", "t"⟩
    = ⟨"Error: Command execution timed out after 300 seconds.", false⟩ := by rfl

example :
    consoleToolRun {} (fun _ => .completed 0 "" "") [InEvent.interrupt] ⟨"ls", "t"⟩
    = ⟨"User interrupted/cancelled the operation, command rejected.", false⟩ := by rfl

/-!
## WebSearchToolWrapper (atomic_heimdall/tools/web_search_tool_wrapper.py)

The declared input schema (`schemas/tool_schemas.py`) has the single field
`query`, but `run` begins with `user_query = params.user_query` — an
attribute access on a pydantic model, which raises `AttributeError` for an
undeclared field. That access stands before the `try:` block, so nothing
catches it. Attribute access is modelled by lookup in the list of the
model's declared fields. The downstream flow (`run_web_search_flow`, an
external collaborator) is an oracle returning the synthesized answer, no
answer, or an exception (the `ImportError` special case only changes the
message text and is modelled as an ordinary exception).
-/

structure WebSearchToolInputSchema where
  query : String
deriving DecidableEq

structure WebSearchToolOutputSchema where
  final_answer : Option String
  success : Bool
deriving DecidableEq

/-- The attributes a `WebSearchToolInputSchema` instance exposes: exactly
its declared pydantic fields. -/
def webSearchInputAttrs (p : WebSearchToolInputSchema) : List (String × String) :=
  [("query", p.query)]

/-- Python attribute access `getattr(p, name)`: an undeclared name raises
`AttributeError`. -/
def pyGetAttr (p : WebSearchToolInputSchema) (name : String) : Except PyExc String :=
  match (webSearchInputAttrs p).lookup name with
  | some v => Except.ok v
  | none => Except.error (PyExc.otherError ("AttributeError: " ++ name))

/-- `WebSearchToolWrapper.run`: `Except.error` means an exception escapes
the method (nothing above `run` in the tool catches it). -/
def webSearchRun (flow : String → Except PyExc (Option String))
    (params : WebSearchToolInputSchema) : Except PyExc WebSearchToolOutputSchema :=
  match pyGetAttr params "user_query" with
  | .error e => .error e
  | .ok q =>
    match flow q with
    | .ok (some resultMarkdown) => .ok ⟨some resultMarkdown, true⟩
    | .ok none =>
      .ok ⟨some "The web search process completed, but no answer could be synthesized (check logs for details).",
           false⟩
    | .error e => .ok ⟨some ("An error occurred during the web search: " ++ e.message), false⟩

example :
    webSearchRun (fun _ => .ok (some "answer")) ⟨"what is log4shell"⟩
    = .error (PyExc.otherError "AttributeError: user_query") := by rfl

/-!
## AgentLoop (atomic_heimdall/main.py, the `main` function)

The inner auto-loop of `main` is modelled step for step. The planner
(`heimdall_agent.run`) is an oracle from (step number, task text, previous
tool result) to a decision or an exception; tool execution
(input-schema construction plus `tool_instance.run`) is an oracle from
(tool name, parameter list) to a result string or an exception. Memory is
the list of entries appended during the turn; each turn also yields the
list of step events for stating how the loop moved.
-/

def MAX_AUTO_STEPS : Nat := 10

inductive Role
  | user
  | assistant
  | system
deriving DecidableEq

structure MemEntry where
  role : Role
  text : String
deriving DecidableEq

structure HeimdallOutputSchema where
  thought : String
  tool_to_use : Option String := none
  tool_parameters : Option (List (String × String)) := none
  response_to_user : Option String := none
deriving DecidableEq

/-- Python truthiness of an optional string (`if agent_output.tool_to_use:`):
`None` and the empty string are falsy. -/
def optStrTruthy : Option String → Bool
  | none => false
  | some s => s ≠ ""

inductive StepEvent
  | toolInvoked (name : String)
  | toolFailed (name : String)
  | unknownTool (name : String)
  | responded (text : String)
  | noAction
  | agentFailed
deriving DecidableEq

/-- What one planner decision makes the inner loop do, as in
`main`: the `if agent_output.tool_to_use:` chain. -/
inductive StepOutcome
  | continueStep (toolResult : String) (entries : List MemEntry) (ev : StepEvent)
  | stopStep (entries : List MemEntry) (ev : StepEvent)
deriving DecidableEq

def StepOutcome.entries : StepOutcome → List MemEntry
  | .continueStep _ es _ => es
  | .stopStep es _ => es

def StepOutcome.event : StepOutcome → StepEvent
  | .continueStep _ _ ev => ev
  | .stopStep _ ev => ev

/-- The `--- Handle Tool Usage --- / --- Handle Direct Agent Response ---
/ --- Handle No Action ---` chain of `main` for one decision: dispatch the
tool when `tool_to_use` is truthy (even if `response_to_user` is also
set), else respond, else record the no-action warning. -/
def handleDecision (tools : List String)
    (execTool : String → List (String × String) → Except PyExc String)
    (dec : HeimdallOutputSchema) : StepOutcome :=
  if optStrTruthy dec.tool_to_use then
    let toolName := dec.tool_to_use.getD ""
    if tools.contains toolName then
      match execTool toolName (dec.tool_parameters.getD []) with
      | .ok res =>
        .continueStep res
          [⟨.system, "Tool '" ++ toolName ++ "' output:\n" ++ res⟩]
          (.toolInvoked toolName)
      | .error e =>
        .stopStep [⟨.system, "Error running tool '" ++ toolName ++ "': " ++ e.message⟩]
          (.toolFailed toolName)
    else
      .stopStep [⟨.system, "Agent hallucinated unknown tool: " ++ toolName⟩]
        (.unknownTool toolName)
  else if optStrTruthy dec.response_to_user then
    .stopStep [⟨.assistant, dec.response_to_user.getD ""⟩]
      (.responded (dec.response_to_user.getD ""))
  else
    .stopStep [⟨.system, "Internal Note: Agent provided no actionable output. Ending loop."⟩]
      .noAction

/-- The inner `while step_count < MAX_AUTO_STEPS` loop of `main`. `fuel`
is `maxSteps - step_count`; the result is (memory entries appended during
the loop, final `step_count`, events in order). -/
def runInner (planner : Nat → String → Option String → Except PyExc HeimdallOutputSchema)
    (tools : List String)
    (execTool : String → List (String × String) → Except PyExc String)
    (currentTask : String) :
    Nat → Nat → Option String → List MemEntry × Nat × List StepEvent
  | 0, stepCount, _ => ([], stepCount, [])
  | fuel + 1, stepCount, lastResult =>
    let sc := stepCount + 1
    let task := if sc = 1 then currentTask
                else "Continue with the plan based on the last tool result."
    match planner sc task lastResult with
    | .error e =>
      ([⟨.system, "Internal Error during agent run: " ++ e.message⟩], sc, [.agentFailed])
    | .ok dec =>
      match handleDecision tools execTool dec with
      | .continueStep res entries ev =>
        let rec2 := runInner planner tools execTool currentTask fuel sc (some res)
        (entries ++ rec2.1, rec2.2.1, ev :: rec2.2.2)
      | .stopStep entries ev => (entries, sc, [ev])

/-- One operator turn of `main`: append the user entry, run the inner loop
with `MAX_AUTO_STEPS`, and append the max-steps system note when the step
counter reached the bound. -/
def processTurn (planner : Nat → String → Option String → Except PyExc HeimdallOutputSchema)
    (tools : List String)
    (execTool : String → List (String × String) → Except PyExc String)
    (memory : List MemEntry) (userInput : String) : List MemEntry × List StepEvent :=
  let mem0 := memory ++ [⟨.user, userInput⟩]
  let inner := runInner planner tools execTool userInput MAX_AUTO_STEPS 0 none
  let mem1 := mem0 ++ inner.1
  let mem2 :=
    if MAX_AUTO_STEPS ≤ inner.2.1 then
      mem1 ++ [⟨.system, "Reached max auto steps (" ++ toString MAX_AUTO_STEPS
                 ++ "). Waiting for user."⟩]
    else mem1
  (mem2, inner.2.2)

example :
    (processTurn (fun _ _ _ => .ok ⟨"t", some "NoSuchTool", none, none⟩)
      ["HumanInTheLoopConsole", "FileManager", "WebSearchTool"]
      (fun _ _ => .ok "done") [] "scan the host").2
    = [.unknownTool "NoSuchTool"] := by rfl

example :
    ((processTurn (fun _ _ _ => .ok ⟨"t", some "FileManager", none, none⟩)
      ["HumanInTheLoopConsole", "FileManager", "WebSearchTool"]
      (fun _ _ => .ok "ok") [] "go").2.countP
        (fun e => match e with | .toolInvoked _ => true | _ => false))
    = 10 := by rfl

example :
    (processTurn (fun _ _ _ => .ok ⟨"t", some "FileManager", none, none⟩)
      ["FileManager"] (fun _ _ => .ok "ok") [] "go").1.getLast?
    = some ⟨.system, "Reached max auto steps (10). Waiting for user."⟩ := by rfl

/-!
## Helper lemmas
-/

lemma FS.makedirs_files (fs : FS) (p : String) : (fs.makedirs p).files = fs.files := rfl

lemma fmWriteAfterDirs_reject (oracle : FMOracle) (stream : List InEvent)
    (action path safePath contentToWrite : String) (fs2 : FS)
    (hrej : (confirmWriteAux stream).1 = false) :
    fmWriteAfterDirs oracle stream action path safePath contentToWrite fs2
      = .ret fs2 ⟨"User rejected the '" ++ action ++ "' operation on '" ++ path ++ "'.",
                  none, false⟩ := by
  simp [fmWriteAfterDirs, hrej]

/-- Every exit of the write/append branch of the `try:` body under a
refused confirmation keeps `files` unchanged and reports
`action_performed = false`. -/
lemma fmTryBody_write_reject (oracle : FMOracle) (workingDir : String) (fs : FS)
    (stream : List InEvent) (action path : String) (content : Option String)
    (reason : String) (safePath : String)
    (hact : action = "write" ∨ action = "append")
    (hrej : (confirmWriteAux stream).1 = false) :
    (∀ fs2 out,
        fmTryBody oracle workingDir fs stream ⟨action, path, content, reason⟩ safePath
          = .ret fs2 out → fs2.files = fs.files ∧ out.action_performed = false) ∧
    (∀ fs2 e,
        fmTryBody oracle workingDir fs stream ⟨action, path, content, reason⟩ safePath
          = .exc fs2 e → fs2.files = fs.files) := by
  have hnr : ¬ (action = "read") := by rcases hact with h | h <;> subst h <;> simp
  have hnl : ¬ (action = "list") := by rcases hact with h | h <;> subst h <;> simp
  have hw : (action = "write" || action = "append") = true := by
    rcases hact with h | h <;> subst h <;> simp
  unfold fmTryBody
  simp only [hnr, if_false, hnl, hw, if_true, ite_false, ite_true]
  cases content with
  | none =>
    constructor
    · intro fs2 out h
      cases h
      exact ⟨rfl, rfl⟩
    · intro fs2 e h
      cases h
  | some contentToWrite =>
    by_cases hpe : fs.pathExists (dirname safePath) = true
    · simp only [hpe, Bool.not_true, Bool.false_eq_true, if_false]
      by_cases hdir : fs.isDir (dirname safePath) = true
      · simp only [hdir, Bool.not_true, Bool.false_eq_true, if_false]
        rw [fmWriteAfterDirs_reject oracle stream action path safePath contentToWrite fs hrej]
        constructor
        · intro fs2 out h
          cases h
          exact ⟨rfl, rfl⟩
        · intro fs2 e h
          cases h
      · simp only [Bool.not_eq_true] at hdir
        simp only [hdir, Bool.not_false, if_true]
        constructor
        · intro fs2 out h
          cases h
          exact ⟨rfl, rfl⟩
        · intro fs2 e h
          cases h
    · simp only [Bool.not_eq_true] at hpe
      simp only [hpe, Bool.not_false, if_true]
      cases hmk : oracle.mkdirErr (dirname safePath) with
      | none =>
        rw [fmWriteAfterDirs_reject oracle stream action path safePath contentToWrite
          (fs.makedirs (dirname safePath)) hrej]
        constructor
        · intro fs2 out h
          cases h
          exact ⟨FS.makedirs_files fs (dirname safePath), rfl⟩
        · intro fs2 e h
          cases h
      | some e0 =>
        cases e0 with
        | ioError m =>
          constructor
          · intro fs2 out h
            cases h
            exact ⟨rfl, rfl⟩
          · intro fs2 e h
            cases h
        | otherError m =>
          constructor
          · intro fs2 out h
            cases h
          · intro fs2 e h
            cases h
            rfl

/-- `FileManagerTool.run` on a rejected write/append leaves every file
unchanged and reports `action_performed = false` (only directories may
have been created). -/
lemma fileManagerRun_write_reject (oracle : FMOracle) (workingDir : String) (fs : FS)
    (stream : List InEvent) (params : FileManagerInputSchema)
    (hact : params.action = "write" ∨ params.action = "append")
    (hrej : (confirmWriteAux stream).1 = false) :
    (fileManagerRun oracle workingDir fs stream params).1.files = fs.files ∧
    (fileManagerRun oracle workingDir fs stream params).2.action_performed = false := by
  obtain ⟨action, path, content, reason⟩ := params
  simp only at hact
  unfold fileManagerRun
  cases hres : resolvePathAtomic workingDir path with
  | none => exact ⟨rfl, rfl⟩
  | some safePath =>
    obtain ⟨hret, hexc⟩ :=
      fmTryBody_write_reject oracle workingDir fs stream action path content reason
        safePath hact hrej
    cases hbody : fmTryBody oracle workingDir fs stream ⟨action, path, content, reason⟩
        safePath with
    | ret fs2 out =>
      obtain ⟨h1, h2⟩ := hret fs2 out hbody
      simp only [hbody]
      exact ⟨h1, h2⟩
    | exc fs2 e =>
      simp only [hbody]
      exact ⟨hexc fs2 e hbody, trivial⟩

/-- When the confirmation prompt is actually reached (path resolved,
content present, parent-directory handling succeeded) and the operator
refuses, the `try:` body returns exactly the rejection result. -/
lemma fmTryBody_reject_status (oracle : FMOracle) (workingDir : String) (fs : FS)
    (stream : List InEvent) (action path contentToWrite reason safePath : String)
    (hact : action = "write" ∨ action = "append")
    (hrej : (confirmWriteAux stream).1 = false)
    (hdirOk : (if fs.pathExists (dirname safePath) then fs.isDir (dirname safePath)
               else (oracle.mkdirErr (dirname safePath)).isNone) = true) :
    ∃ fs2, fmTryBody oracle workingDir fs stream
        ⟨action, path, some contentToWrite, reason⟩ safePath
      = .ret fs2 ⟨"User rejected the '" ++ action ++ "' operation on '" ++ path ++ "'.",
                  none, false⟩ := by
  have hnr : ¬ (action = "read") := by rcases hact with h | h <;> subst h <;> simp
  have hnl : ¬ (action = "list") := by rcases hact with h | h <;> subst h <;> simp
  have hw : (action = "write" || action = "append") = true := by
    rcases hact with h | h <;> subst h <;> simp
  unfold fmTryBody
  dsimp only
  rw [if_neg hnr, if_neg hnl, if_pos hw]
  by_cases hpe : fs.pathExists (dirname safePath) = true
  · rw [if_pos hpe] at hdirOk
    simp only [hpe, Bool.not_true, Bool.false_eq_true, if_false, hdirOk]
    exact ⟨fs, fmWriteAfterDirs_reject oracle stream action path safePath contentToWrite fs hrej⟩
  · simp only [Bool.not_eq_true] at hpe
    rw [if_neg (by simp [hpe])] at hdirOk
    simp only [Option.isNone_iff_eq_none] at hdirOk
    simp only [hpe, Bool.not_false, if_true, hdirOk]
    exact ⟨fs.makedirs (dirname safePath),
      fmWriteAfterDirs_reject oracle stream action path safePath contentToWrite
        (fs.makedirs (dirname safePath)) hrej⟩

/-!
## Claim theorems
-/

/-- C1 (code_bug): path confinement fails on the atomic FileManagerTool.
`_resolve_path` checks `abs_path.startswith(self.working_dir)` without a
trailing separator, so a traversal input may resolve to a sibling
directory whose name extends the root's name and still be accepted; `run`
then reads that outside file. The smol variant's `commonpath` check
rejects the same input. The input `../heimdall_workspace_evil/secret.txt`
resolves outside the root `/tmp/heimdall_workspace` (`pathWithin` is
false), yet the tool returns the outside file's content with
`action_performed = true` instead of a failure result. -/
theorem c1_atomic_confinement_escape :
    resolvePathAtomic "/tmp/heimdall_workspace" "../heimdall_workspace_evil/secret.txt"
      = some "/tmp/heimdall_workspace_evil/secret.txt" ∧
    pathWithin "/tmp/heimdall_workspace" "/tmp/heimdall_workspace_evil/secret.txt" = false ∧
    (fileManagerRun noErrOracle "/tmp/heimdall_workspace"
        ⟨["/", "/tmp", "/tmp/heimdall_workspace", "/tmp/heimdall_workspace_evil"],
         [("/tmp/heimdall_workspace_evil/secret.txt", "TOPSECRET")]⟩
        [] ⟨"read", "../heimdall_workspace_evil/secret.txt", none, "r"⟩).2
      = ⟨"Successfully read content from '../heimdall_workspace_evil/secret.txt'.",
         some "TOPSECRET", true⟩ ∧
    resolvePathSmol "/tmp/heimdall_workspace" "../heimdall_workspace_evil/secret.txt" = none :=
  ⟨rfl, rfl, rfl, rfl⟩

/-- C2 counterexample: a rejected `write` to `sub/notes.txt` does not
leave the filesystem completely unchanged — the parent directory
`/w/root/sub` is created by `os.makedirs` before `_confirm_write_action`
is consulted, and survives the rejection. -/
theorem c2_rejected_write_creates_directory :
    (fileManagerRun noErrOracle "/w/root" ⟨["/", "/w", "/w/root"], []⟩
        [InEvent.line "n"] ⟨"write", "sub/notes.txt", some "x", "r"⟩)
      = (⟨["/w/root/sub", "/", "/w", "/w/root"], []⟩,
         ⟨"User rejected the 'write' operation on 'sub/notes.txt'.", none, false⟩) ∧
    (⟨["/w/root/sub", "/", "/w", "/w/root"], []⟩ : FS) ≠ ⟨["/", "/w", "/w/root"], []⟩ :=
  ⟨rfl, by decide⟩

/-- C2 (amended): on a rejected write/append the target file is neither
created nor modified — no file at all changes — and the result reports the
rejection with `action_performed = false`; missing parent directories,
however, may already have been created before the prompt. -/
theorem c2_reject_write_no_file_touched (oracle : FMOracle) (workingDir : String)
    (fs : FS) (stream : List InEvent) (params : FileManagerInputSchema)
    (hact : params.action = "write" ∨ params.action = "append")
    (hrej : (confirmWriteAux stream).1 = false) :
    (fileManagerRun oracle workingDir fs stream params).1.files = fs.files ∧
    (fileManagerRun oracle workingDir fs stream params).2.action_performed = false ∧
    (∀ safePath contentToWrite,
        resolvePathAtomic workingDir params.path = some safePath →
        params.content = some contentToWrite →
        (if fs.pathExists (dirname safePath) then fs.isDir (dirname safePath)
         else (oracle.mkdirErr (dirname safePath)).isNone) = true →
        (fileManagerRun oracle workingDir fs stream params).2.status
          = "User rejected the '" ++ params.action ++ "' operation on '"
              ++ params.path ++ "'.") := by
  obtain ⟨h1, h2⟩ := fileManagerRun_write_reject oracle workingDir fs stream params hact hrej
  refine ⟨h1, h2, ?_⟩
  intro safePath contentToWrite hres hc hdirOk
  obtain ⟨action, path, content, reason⟩ := params
  simp only at hact hres hc ⊢
  subst hc
  obtain ⟨fs2, hbody⟩ := fmTryBody_reject_status oracle workingDir fs stream action path
    contentToWrite reason safePath hact hrej hdirOk
  unfold fileManagerRun
  simp only [hres, hbody]

/-- C5 (code_bug): `WebSearchToolWrapper.run` reads `params.user_query`,
but the declared input schema's only field is `query`; the attribute
access raises `AttributeError` before the `try:` block, so for every input
and every behaviour of the downstream flow the exception propagates to the
caller instead of a `success = false` result. -/
theorem c5_websearch_raises_attribute_error
    (flow : String → Except PyExc (Option String)) (params : WebSearchToolInputSchema) :
    webSearchRun flow params = .error (PyExc.otherError "AttributeError: user_query") ∧
    pyGetAttr params "query" = .ok params.query :=
  ⟨rfl, rfl⟩

/-- C6 counterexample: the smol `FileManager` does not reject every
absolute path — an absolute path pointing inside the working-directory
root passes `_resolve_path`'s `commonpath` check and the read is
performed. -/
theorem c6_smol_accepts_inside_absolute :
    isabs "/x/work/file.txt" = true ∧
    fileManagerSmolCall noErrOracle "/x/work"
        ⟨["/", "/x", "/x/work"], [("/x/work/file.txt", "hello")]⟩
        [] "read" "/x/work/file.txt" "r" none
      = (⟨["/", "/x", "/x/work"], [("/x/work/file.txt", "hello")]⟩,
         "Successfully read content from '/x/work/file.txt':\nhello") :=
  ⟨rfl, rfl⟩

/-- C6 (amended): the atomic FileManagerTool rejects every absolute path
with the disallowed-path failure result and no filesystem access; the smol
FileManager instead resolves an absolute path to itself (normalized) and
rejects it only when the `commonpath` test shows it lies outside the
working-directory root. -/
theorem c6_atomic_rejects_all_absolute (oracle : FMOracle) (workingDir : String)
    (fs : FS) (stream : List InEvent) (params : FileManagerInputSchema)
    (habs : isabs params.path = true) :
    fileManagerRun oracle workingDir fs stream params
      = (fs, ⟨"Error: Invalid or disallowed path '" ++ params.path
                ++ "'. Operations confined to '" ++ basename workingDir ++ "'.",
              none, false⟩) ∧
    resolvePathSmol workingDir params.path
      = (if commonpath2 workingDir (normpath params.path) ≠ workingDir then none
         else some (normpath params.path)) := by
  have h1 : resolvePathAtomic workingDir params.path = none := by
    simp [resolvePathAtomic, habs]
  have hj : joinPath workingDir params.path = params.path := by
    simp [joinPath, habs]
  constructor
  · unfold fileManagerRun
    rw [h1]
  · simp only [resolvePathSmol, hj]

/-- C2 witness: the amended rejection guarantee evaluated on a concrete
rejected write of `notes.txt` directly under the root. -/
theorem c2_reject_write_no_file_touched_witness :
    (fileManagerRun noErrOracle "/w/root" ⟨["/", "/w", "/w/root"], []⟩
        [InEvent.line "n"] ⟨"write", "notes.txt", some "x", "r"⟩).1.files = [] ∧
    (fileManagerRun noErrOracle "/w/root" ⟨["/", "/w", "/w/root"], []⟩
        [InEvent.line "n"] ⟨"write", "notes.txt", some "x", "r"⟩).2.action_performed = false ∧
    (fileManagerRun noErrOracle "/w/root" ⟨["/", "/w", "/w/root"], []⟩
        [InEvent.line "n"] ⟨"write", "notes.txt", some "x", "r"⟩).2.status
      = "User rejected the 'write' operation on 'notes.txt'." := by
  obtain ⟨h1, h2, h3⟩ := c2_reject_write_no_file_touched noErrOracle "/w/root"
    ⟨["/", "/w", "/w/root"], []⟩ [InEvent.line "n"] ⟨"write", "notes.txt", some "x", "r"⟩
    (Or.inl rfl) rfl
  exact ⟨h1, h2, h3 "/w/root/notes.txt" "x" rfl rfl rfl⟩

/-- C6 witness: the amended absolute-path behaviour evaluated at the
absolute input `/etc/passwd` against root `/w/root`. -/
theorem c6_atomic_rejects_all_absolute_witness :
    fileManagerRun noErrOracle "/w/root" ⟨["/", "/w", "/w/root"], []⟩ []
        ⟨"read", "/etc/passwd", none, "r"⟩
      = (⟨["/", "/w", "/w/root"], []⟩,
         ⟨"Error: Invalid or disallowed path '/etc/passwd'. Operations confined to 'root'.",
          none, false⟩) ∧
    resolvePathSmol "/w/root" "/etc/passwd" = none := by
  obtain ⟨h1, h2⟩ := c6_atomic_rejects_all_absolute noErrOracle "/w/root"
    ⟨["/", "/w", "/w/root"], []⟩ [] ⟨"read", "/etc/passwd", none, "r"⟩ rfl
  exact ⟨h1, h2.trans (by rfl)⟩

/-- The console tool reports `executed = true` only when the process
oracle actually completed some command, and then the result is the
captured exit code and output text. -/
lemma consoleLoop_executed_completed (cfg : ConsoleToolConfig)
    (exec : String → ExecOutcome) :
    ∀ (fuel : Nat) (stream : List InEvent) (command : String),
    (consoleLoop cfg exec fuel stream command).executed = true →
    ∃ c exitCode stdout stderr, exec c = .completed exitCode stdout stderr ∧
      (consoleLoop cfg exec fuel stream command).result = execOutputText exitCode stdout stderr := by
  intro fuel
  induction fuel with
  | zero =>
    intro stream command h
    simp [consoleLoop] at h
  | succ fuel ih =>
    intro stream command h
    cases stream with
    | nil => simp [consoleLoop] at h
    | cons ev rest =>
      cases ev with
      | interrupt => simp [consoleLoop] at h
      | line s =>
        by_cases hy : pyLowerStrip s = "y"
        · cases hx : exec command with
          | completed exitCode stdout stderr =>
            exact ⟨command, exitCode, stdout, stderr, hx, by simp [consoleLoop, hy, hx]⟩
          | timedOut => simp [consoleLoop, hy, hx] at h
          | notFound => simp [consoleLoop, hy, hx] at h
          | raised m => simp [consoleLoop, hy, hx] at h
        · by_cases hn : pyLowerStrip s = "n"
          · cases rest with
            | nil => simp [consoleLoop, hy, hn] at h
            | cons ev2 rest2 =>
              cases ev2 with
              | interrupt => simp [consoleLoop, hy, hn] at h
              | line rs => simp [consoleLoop, hy, hn] at h
          · by_cases he : pyLowerStrip s = "edit"
            · cases rest with
              | nil => simp [consoleLoop, hy, hn, he] at h
              | cons ev2 rest2 =>
                cases ev2 with
                | interrupt => simp [consoleLoop, hy, hn, he] at h
                | line nc =>
                  by_cases hne : pyStrip nc = ""
                  · simp [consoleLoop, hy, hn, he, hne] at h
                  · simp only [consoleLoop, hy, hn, he, hne, if_neg, if_pos, ite_true,
                      ite_false, ne_eq, not_false_eq_true] at h ⊢
                    exact ih rest2 nc h
            · simp only [consoleLoop, hy, hn, he, if_neg, if_pos, ite_true, ite_false,
                ne_eq, not_false_eq_true] at h ⊢
              exact ih rest command h



/-- C3 (confirmed): tool runs return a structured output value and no
exception escapes the boundary. `fileManagerRun` totalizes its `try:`
body — whenever the body ends in an exception the `except` clauses return
a failure schema whose status describes the error and whose
`action_performed` is false — and the console tool's `run` reports
`executed = true` only when the process oracle completed a command, every
failure outcome (timeout, not-found, raised) being folded into the result
text with `executed = false`. -/
theorem c3_tool_contract_total (oracle : FMOracle) (workingDir : String) (fs : FS)
    (stream : List InEvent) (params : FileManagerInputSchema)
    (cfg : ConsoleToolConfig) (exec : String → ExecOutcome) (cstream : List InEvent)
    (cparams : ConsoleToolInputSchema) :
    (∀ safePath fs2 e,
        resolvePathAtomic workingDir params.path = some safePath →
        fmTryBody oracle workingDir fs stream params safePath = .exc fs2 e →
        fileManagerRun oracle workingDir fs stream params
          = (fs2, ⟨fmExcStatus params.action params.path e, none, false⟩)) ∧
    ((consoleToolRun cfg exec cstream cparams).executed = true →
        ∃ c exitCode stdout stderr, exec c = .completed exitCode stdout stderr ∧
          (consoleToolRun cfg exec cstream cparams).result
            = execOutputText exitCode stdout stderr) := by
  constructor
  · intro safePath fs2 e hres hbody
    unfold fileManagerRun
    simp only [hres, hbody]
  · intro h
    exact consoleLoop_executed_completed cfg exec cstream.length cstream cparams.command h

/-- C3 witness: an injected `IOError` during a read is caught and returned
as a failure result. -/
theorem c3_tool_contract_total_witness :
    fileManagerRun
        ⟨fun _ => some (.ioError "disk failure"), fun _ => none, fun _ => none, fun _ => none⟩
        "/w/root" ⟨["/", "/w", "/w/root"], [("/w/root/f.txt", "data")]⟩ []
        ⟨"read", "f.txt", none, "r"⟩
      = (⟨["/", "/w", "/w/root"], [("/w/root/f.txt", "data")]⟩,
         ⟨"Error performing 'read' on 'f.txt': disk failure", none, false⟩) :=
  (c3_tool_contract_total
    ⟨fun _ => some (.ioError "disk failure"), fun _ => none, fun _ => none, fun _ => none⟩
    "/w/root" ⟨["/", "/w", "/w/root"], [("/w/root/f.txt", "data")]⟩ []
    ⟨"read", "f.txt", none, "r"⟩ {} (fun _ => .timedOut) [] ⟨"ls", "r"⟩).1
    "/w/root/f.txt" ⟨["/", "/w", "/w/root"], [("/w/root/f.txt", "data")]⟩
    (.ioError "disk failure") rfl rfl

/-- C7 (confirmed): the console tool's configured timeout defaults to 300
seconds; `executed = true` arises only when the process completed; and an
approved command whose execution exceeds the timeout yields a
timeout-specific status with `executed = false` instead of an
exception. -/
theorem c7_console_timeout_behaviour (cfg : ConsoleToolConfig) (exec : String → ExecOutcome)
    (stream : List InEvent) (params : ConsoleToolInputSchema) :
    ({} : ConsoleToolConfig).timeout = 300 ∧
    ((consoleToolRun cfg exec stream params).executed = true →
      ∃ c exitCode stdout stderr, exec c = .completed exitCode stdout stderr) ∧
    (∀ s rest, pyLowerStrip s = "y" → exec params.command = .timedOut →
      consoleToolRun cfg exec (InEvent.line s :: rest) params
        = ⟨"Error: Command execution timed out after " ++ toString cfg.timeout ++ " seconds.",
           false⟩) := by
  refine ⟨rfl, ?_, ?_⟩
  · intro h
    obtain ⟨c, exitCode, stdout, stderr, hx, _⟩ :=
      consoleLoop_executed_completed cfg exec stream.length stream params.command h
    exact ⟨c, exitCode, stdout, stderr, hx⟩
  · intro s rest hy hx
    unfold consoleToolRun
    simp [consoleLoop, hy, hx]

/-- C7 witness: the timeout branch evaluated at a concrete approved
command under an always-timing-out process oracle. -/
theorem c7_console_timeout_behaviour_witness :
    consoleToolRun {} (fun _ => .timedOut) [InEvent.line "y"] ⟨"sleep 400", "wait"⟩
      = ⟨"Error: Command execution timed out after 300 seconds.", false⟩ :=
  (c7_console_timeout_behaviour {} (fun _ => .timedOut) [] ⟨"sleep 400", "wait"⟩).2.2
    "y" [] rfl rfl

/-- Under a planner that always picks a registered tool whose execution
succeeds, the inner loop consumes all its fuel, performing one tool
invocation per step. -/
lemma runInner_all_tool_invocations
    (planner : Nat → String → Option String → Except PyExc HeimdallOutputSchema)
    (tools : List String)
    (execTool : String → List (String × String) → Except PyExc String)
    (task : String)
    (hplan : ∀ sc t prev, ∃ dec, planner sc t prev = .ok dec ∧
        optStrTruthy dec.tool_to_use = true ∧
        tools.contains (dec.tool_to_use.getD "") = true ∧
        ∃ res, execTool (dec.tool_to_use.getD "") (dec.tool_parameters.getD []) = .ok res) :
    ∀ (fuel sc : Nat) (last : Option String),
      (runInner planner tools execTool task fuel sc last).2.1 = sc + fuel ∧
      ((runInner planner tools execTool task fuel sc last).2.2.countP
        (fun e => match e with | .toolInvoked _ => true | _ => false)) = fuel := by
  intro fuel
  induction fuel with
  | zero =>
    intro sc last
    simp [runInner]
  | succ fuel ih =>
    intro sc last
    obtain ⟨dec, hdec, htr, hreg, res, hres⟩ :=
      hplan (sc + 1)
        (if sc + 1 = 1 then task else "Continue with the plan based on the last tool result.")
        last
    obtain ⟨ih1, ih2⟩ := ih (sc + 1) (some res)
    simp only [runInner, hdec, handleDecision, htr, hreg, hres, if_true, ite_true,
      List.countP_cons, List.cons_append, List.nil_append]
    constructor
    · rw [ih1]
      omega
    · simp only [ih2]

/-- C4 (confirmed): with a planner stub that always returns a registered
tool (and the tool call succeeding, the spec's "valid no-op tool"), one
operator turn performs exactly `MAX_AUTO_STEPS` (= 10) tool invocations,
then stops by itself, appends the max-steps system note to memory, and
control returns to the operator-input state. -/
theorem c4_step_bound
    (planner : Nat → String → Option String → Except PyExc HeimdallOutputSchema)
    (tools : List String)
    (execTool : String → List (String × String) → Except PyExc String)
    (memory : List MemEntry) (userInput : String)
    (hplan : ∀ sc t prev, ∃ dec, planner sc t prev = .ok dec ∧
        optStrTruthy dec.tool_to_use = true ∧
        tools.contains (dec.tool_to_use.getD "") = true ∧
        ∃ res, execTool (dec.tool_to_use.getD "") (dec.tool_parameters.getD []) = .ok res) :
    ((processTurn planner tools execTool memory userInput).2.countP
        (fun e => match e with | .toolInvoked _ => true | _ => false)) = MAX_AUTO_STEPS ∧
    (processTurn planner tools execTool memory userInput).1.getLast?
      = some ⟨.system, "Reached max auto steps (10). Waiting for user."⟩ := by
  obtain ⟨hsc, hcount⟩ :=
    runInner_all_tool_invocations planner tools execTool userInput hplan MAX_AUTO_STEPS 0 none
  unfold processTurn
  dsimp only
  constructor
  · exact hcount
  · rw [hsc, if_pos (by omega), List.getLast?_append]
    rfl

/-- C4 witness: the step bound evaluated with a concrete always-FileManager
planner stub and an always-succeeding tool executor. -/
theorem c4_step_bound_witness :
    ((processTurn (fun _ _ _ => .ok ⟨"t", some "FileManager", none, none⟩)
        ["HumanInTheLoopConsole", "FileManager", "WebSearchTool"]
        (fun _ _ => .ok "ok") [] "go").2.countP
        (fun e => match e with | .toolInvoked _ => true | _ => false)) = MAX_AUTO_STEPS ∧
    (processTurn (fun _ _ _ => .ok ⟨"t", some "FileManager", none, none⟩)
        ["HumanInTheLoopConsole", "FileManager", "WebSearchTool"]
        (fun _ _ => .ok "ok") [] "go").1.getLast?
      = some ⟨.system, "Reached max auto steps (10). Waiting for user."⟩ :=
  c4_step_bound (fun _ _ _ => .ok ⟨"t", some "FileManager", none, none⟩)
    ["HumanInTheLoopConsole", "FileManager", "WebSearchTool"] (fun _ _ => .ok "ok") [] "go"
    (fun _ _ _ => ⟨⟨"t", some "FileManager", none, none⟩, rfl, by decide, by decide, "ok", rfl⟩)

/-- C8 (confirmed): a planner decision naming an unregistered tool does
not crash the loop — `processTurn` returns normally with the user entry
followed by a system entry documenting the hallucinated tool, the inner
loop ends after that single step and control is back at operator input. -/
theorem c8_unknown_tool_recovery
    (planner : Nat → String → Option String → Except PyExc HeimdallOutputSchema)
    (tools : List String)
    (execTool : String → List (String × String) → Except PyExc String)
    (memory : List MemEntry) (userInput : String)
    (dec : HeimdallOutputSchema) (t : String)
    (hdec : planner 1 userInput none = .ok dec)
    (htool : dec.tool_to_use = some t) (hne : t ≠ "")
    (hunk : tools.contains t = false) :
    processTurn planner tools execTool memory userInput
      = (memory ++ [⟨.user, userInput⟩, ⟨.system, "Agent hallucinated unknown tool: " ++ t⟩],
         [.unknownTool t]) := by
  have h1 : runInner planner tools execTool userInput MAX_AUTO_STEPS 0 none
      = ([⟨.system, "Agent hallucinated unknown tool: " ++ t⟩], 1, [.unknownTool t]) := by
    show runInner planner tools execTool userInput (9 + 1) 0 none = _
    have hmem : t ∉ tools := by simpa using hunk
    simp [runInner, hdec, handleDecision, optStrTruthy, htool, hne, hmem]
  unfold processTurn
  dsimp only
  rw [h1]
  simp [MAX_AUTO_STEPS]

/-- C8 witness: the unknown-tool recovery at the concrete decision naming
`NoSuchTool` against the real registry names. -/
theorem c8_unknown_tool_recovery_witness :
    processTurn (fun _ _ _ => .ok ⟨"t", some "NoSuchTool", none, none⟩)
        ["HumanInTheLoopConsole", "FileManager", "WebSearchTool"]
        (fun _ _ => .ok "ok") [] "scan the host"
      = ([⟨.user, "scan the host"⟩,
          ⟨.system, "Agent hallucinated unknown tool: NoSuchTool"⟩],
         [.unknownTool "NoSuchTool"]) :=
  c8_unknown_tool_recovery (fun _ _ _ => .ok ⟨"t", some "NoSuchTool", none, none⟩)
    ["HumanInTheLoopConsole", "FileManager", "WebSearchTool"] (fun _ _ => .ok "ok")
    [] "scan the host" ⟨"t", some "NoSuchTool", none, none⟩ "NoSuchTool"
    rfl rfl (by decide) (by decide)

/-- C9 (confirmed): when a decision populates both `tool_to_use` and
`response_to_user`, the `if agent_output.tool_to_use:` chain always takes
the tool path — the step behaves exactly as it would with
`response_to_user` absent, appends no assistant entry, and never produces
a responded event. `handleDecision` is a function of the decision alone,
so the outcome is identical on every run with the same decision. -/
theorem c9_both_fields_tool_path_wins (tools : List String)
    (execTool : String → List (String × String) → Except PyExc String)
    (dec : HeimdallOutputSchema) (r : String)
    (htool : optStrTruthy dec.tool_to_use = true) :
    handleDecision tools execTool { dec with response_to_user := some r }
      = handleDecision tools execTool { dec with response_to_user := none } ∧
    (∀ e, e ∈ (handleDecision tools execTool { dec with response_to_user := some r }).entries →
       e.role ≠ Role.assistant) ∧
    (∀ txt, (handleDecision tools execTool { dec with response_to_user := some r }).event
       ≠ StepEvent.responded txt) := by
  obtain ⟨th, tool, tparams, resp⟩ := dec
  simp only at htool
  unfold handleDecision
  dsimp only
  rw [if_pos htool, if_pos htool]
  refine ⟨rfl, ?_, ?_⟩
  · intro e he
    by_cases hcon : tools.contains (tool.getD "") = true
    · rw [if_pos hcon] at he
      cases hexec : execTool (tool.getD "") (tparams.getD []) with
      | ok res =>
        rw [hexec] at he
        simp only [StepOutcome.entries, List.mem_singleton] at he
        subst he
        simp
      | error err =>
        rw [hexec] at he
        simp only [StepOutcome.entries, List.mem_singleton] at he
        subst he
        simp
    · rw [if_neg hcon] at he
      simp only [StepOutcome.entries, List.mem_singleton] at he
      subst he
      simp
  · intro txt
    by_cases hcon : tools.contains (tool.getD "") = true
    · rw [if_pos hcon]
      cases hexec : execTool (tool.getD "") (tparams.getD []) with
      | ok res => simp [StepOutcome.event]
      | error err => simp [StepOutcome.event]
    · rw [if_neg hcon]
      simp [StepOutcome.event]

/-- C9 witness: the tool path taken on a concrete decision carrying both a
tool name and a user response. -/
theorem c9_both_fields_tool_path_wins_witness :
    handleDecision ["FileManager"] (fun _ _ => .ok "ok")
        ⟨"t", some "FileManager", none, some "also a reply"⟩
      = handleDecision ["FileManager"] (fun _ _ => .ok "ok")
          ⟨"t", some "FileManager", none, none⟩ ∧
    (∀ e, e ∈ (handleDecision ["FileManager"] (fun _ _ => .ok "ok")
        ⟨"t", some "FileManager", none, some "also a reply"⟩).entries →
       e.role ≠ Role.assistant) ∧
    (∀ txt, (handleDecision ["FileManager"] (fun _ _ => .ok "ok")
        ⟨"t", some "FileManager", none, some "also a reply"⟩).event
       ≠ StepEvent.responded txt) :=
  c9_both_fields_tool_path_wins ["FileManager"] (fun _ _ => .ok "ok")
    ⟨"t", some "FileManager", none, none⟩ "also a reply" (by decide)

/-- C10 (confirmed): an interruption (`KeyboardInterrupt`) or a closed
input stream (`EOFError`) during any approval wait is handled as a
rejection: both console tools return their rejection text without
executing (atomic reports `executed = false`), the file-manager
confirmation returns false, and a write/append under an interrupted
stream leaves every file unchanged with `action_performed = false`. -/
theorem c10_interrupt_is_reject (cfg : ConsoleToolConfig) (exec : String → ExecOutcome)
    (rest : List InEvent) (params : ConsoleToolInputSchema) (brk : SmolBreak) (cmd : String)
    (oracle : FMOracle) (workingDir : String) (fs : FS)
    (fmParams : FileManagerInputSchema)
    (hact : fmParams.action = "write" ∨ fmParams.action = "append") :
    consoleToolRun cfg exec (InEvent.interrupt :: rest) params
      = ⟨"User interrupted/cancelled the operation, command rejected.", false⟩ ∧
    consoleToolRun cfg exec [] params
      = ⟨"User interrupted/cancelled the operation, command rejected.", false⟩ ∧
    smolConsoleCall exec brk (InEvent.interrupt :: rest) cmd = smolBreakText brk ∧
    (confirmWriteAux (InEvent.interrupt :: rest)).1 = false ∧
    (fileManagerRun oracle workingDir fs (InEvent.interrupt :: rest) fmParams).1.files
      = fs.files ∧
    (fileManagerRun oracle workingDir fs (InEvent.interrupt :: rest) fmParams).2.action_performed
      = false := by
  obtain ⟨hf1, hf2⟩ := fileManagerRun_write_reject oracle workingDir fs
    (InEvent.interrupt :: rest) fmParams hact rfl
  exact ⟨rfl, rfl, rfl, rfl, hf1, hf2⟩

/-- C10 witness: the interrupt-as-reject behaviour at concrete inputs
(an interrupted console approval and an interrupted write approval). -/
theorem c10_interrupt_is_reject_witness :
    consoleToolRun {} (fun _ => .completed 0 "" "") [InEvent.interrupt] ⟨"rm -rf /", "r"⟩
      = ⟨"User interrupted/cancelled the operation, command rejected.", false⟩ ∧
    smolConsoleCall (fun _ => .completed 0 "" "") SmolBreak.keyboard [InEvent.interrupt] "ls"
      = "User interrupted the operation, command rejected." ∧
    (fileManagerRun noErrOracle "/w/root" ⟨["/", "/w", "/w/root"], []⟩
        [InEvent.interrupt] ⟨"write", "notes.txt", some "x", "r"⟩).1.files = [] ∧
    (fileManagerRun noErrOracle "/w/root" ⟨["/", "/w", "/w/root"], []⟩
        [InEvent.interrupt] ⟨"write", "notes.txt", some "x", "r"⟩).2.action_performed
      = false := by
  obtain ⟨h1, _, h3, _, h5, h6⟩ := c10_interrupt_is_reject {} (fun _ => .completed 0 "" "")
    [] ⟨"rm -rf /", "r"⟩ SmolBreak.keyboard "ls" noErrOracle "/w/root"
    ⟨["/", "/w", "/w/root"], []⟩ ⟨"write", "notes.txt", some "x", "r"⟩ (Or.inl rfl)
  exact ⟨h1, h3, h5, h6⟩
